import Mathlib

/-!
Verification of the gluon-ts probabilistic forecasting core: the
negative-binomial distribution primitives, the DeepState linear dynamical
system (LDS) wiring, and the estimator construction-time checks.

Real-valued tensor operations of the underlying framework (`F.log`,
`F.gammaln`, ...) are embedded as the corresponding mathematical functions
on `ℝ`, elementwise (single scalar element); random draws are embedded as
explicit function parameters supplying the drawn values.
-/

namespace GluonTS

open Matrix

noncomputable section RealDefs

/-- `F.log1p(x)`: the log1p primitive of the tensor framework, `log (1 + x)`. -/
def log1p (x : ℝ) : ℝ := Real.log (1 + x)

/-- `F.gammaln(x)`: the log-gamma primitive of the tensor framework. -/
def gammaln (x : ℝ) : ℝ := Real.log (Real.Gamma x)

namespace NegativeBinomial

/-- `NegativeBinomial.log_prob` from `gluonts/distribution/neg_binomial.py`:
`alphaInv = 1.0 / alpha`, `alpha_times_mu = alpha * mu`, and
`ll = x * log(alpha_times_mu / (1 + alpha_times_mu))
     - alphaInv * log1p(alpha_times_mu)
     + gammaln(x + alphaInv) - gammaln(x + 1) - gammaln(alphaInv)`. -/
def log_prob (mu alpha x : ℝ) : ℝ :=
  let alphaInv : ℝ := 1.0 / alpha
  let alpha_times_mu : ℝ := alpha * mu
  x * Real.log (alpha_times_mu / (1.0 + alpha_times_mu))
    - alphaInv * log1p alpha_times_mu
    + gammaln (x + alphaInv)
    - gammaln (x + 1.0)
    - gammaln alphaInv

/-- `NegativeBinomial.mean`: returns `self.mu`. -/
def mean (mu _alpha : ℝ) : ℝ := mu

/-- `NegativeBinomial.stddev`: returns `sqrt(mu * (1 + mu * alpha))`. -/
def stddev (mu alpha : ℝ) : ℝ := Real.sqrt (mu * (1.0 + mu * alpha))

/-- In `NegativeBinomial.sample`, the clamped Gamma shape:
`r = 1.0 / alpha; r = F.minimum(F.maximum(tol, r), 1e10)` with `tol = 1e-5`. -/
def sampleShape (alpha : ℝ) : ℝ := min (max 1e-5 (1.0 / alpha)) 1e10

/-- In `NegativeBinomial.sample`, the clamped Gamma scale:
`theta = alpha * mu; theta = F.minimum(F.maximum(tol, theta), 1e10)`. -/
def sampleScale (mu alpha : ℝ) : ℝ := min (max 1e-5 (alpha * mu)) 1e10

/-- In `NegativeBinomial.sample`, the capped Gamma variate used as the Poisson
rate: `x = F.minimum(F.random.gamma(r, theta), 1e6)`.  The framework's Gamma
sampler is embedded as an explicit draw function of the (clamped) shape and
scale. -/
def sampleRate (gammaDraw : ℝ → ℝ → ℝ) (mu alpha : ℝ) : ℝ :=
  min (gammaDraw (sampleShape alpha) (sampleScale mu alpha)) 1e6

/-- The inner function `s(mu, alpha)` of `NegativeBinomial.sample`: a Poisson
draw (embedded as an explicit draw function returning a count) at the capped
Gamma rate. -/
def sample_s (gammaDraw : ℝ → ℝ → ℝ) (poissonDraw : ℝ → ℕ) (mu alpha : ℝ) : ℕ :=
  poissonDraw (sampleRate gammaDraw mu alpha)

end NegativeBinomial

namespace NegativeBinomialOutput

/-- Modelled from the spec: `softplus` (imported by `neg_binomial.py` from
`gluonts.distribution.distribution`, which is not among the given sources) is
described as "a softplus transform"; the standard softplus is
`log (1 + exp x)`. -/
def softplus (x : ℝ) : ℝ := Real.log (1 + Real.exp x)

/-- `NegativeBinomialOutput.domain_map`: `mu = softplus(F, mu) + 1e-8`,
`alpha = softplus(F, alpha) + 1e-8` (the trailing `squeeze` only removes a
singleton axis and is a no-op on the scalar element embedded here). -/
def domain_map (mu alpha : ℝ) : ℝ × ℝ :=
  (softplus mu + 1e-8, softplus alpha + 1e-8)

/-- `NegativeBinomialOutput.distribution`: with `scale=None` the parameters
are passed through unchanged; otherwise `mu = broadcast_mul(mu, scale)` and
`alpha = broadcast_mul(alpha, sqrt(scale + 1.0))`.  The result is the
parameter pair of the constructed `NegativeBinomial`. -/
def distribution (distr_args : ℝ × ℝ) (scale : Option ℝ) : ℝ × ℝ :=
  match scale with
  | none => (distr_args.1, distr_args.2)
  | some s => (distr_args.1 * s, distr_args.2 * Real.sqrt (s + 1.0))

end NegativeBinomialOutput

end RealDefs

noncomputable section LDSDefs

/-- Per-step coefficient tuple of the linear dynamical system: emission
coefficient (row vector), transition matrix, innovation coefficient
(rank-1 process-noise direction), observation-noise standard deviation and
additive residual bias. -/
structure LDSCoeff (n : ℕ) where
  emission : Fin n → ℝ
  transition : Matrix (Fin n) (Fin n) ℝ
  innovation : Fin n → ℝ
  noise_std : ℝ
  residual : ℝ

/-- One step's full input to the `log_prob` recursion: the coefficients plus
the observation at that step and its observed-mask flag. -/
structure LDSStep (n : ℕ) where
  coeff : LDSCoeff n
  obs : ℝ
  observed : Bool

/-- Running state of the filter recursion: latent mean, latent covariance and
accumulated log-likelihood. -/
structure LDSState (n : ℕ) where
  mean : Fin n → ℝ
  cov : Matrix (Fin n) (Fin n) ℝ
  ll : ℝ

/-- Modelled from the spec: the "small additive floor" on the predictive
variance used to stabilize divisions (`gluonts/distribution/lds.py` is not
among the given sources; the spec leaves the exact constant configurable). -/
def varianceFloor : ℝ := 1e-8

/-- Gaussian log-density of `z` under mean `m` and variance `v`. -/
def gaussianLogDensity (z m v : ℝ) : ℝ :=
  -(1 / 2) * (Real.log (2 * Real.pi * v) + (z - m) ^ 2 / v)

/-- Modelled from the spec: one step of `LDS.log_prob`
(`gluonts/distribution/lds.py` is not among the given sources).  Following
§4.2 of the spec: (1) predict the observation mean and variance from the
current latent belief; (2) add the Gaussian log-density of the scaled
observation, masked to zero when the step is not observed; (3) apply the
Kalman-gain correction (with the variance floor in the division), gated by
the observed mask — when not observed the filtered state equals the
predicted state; (4) propagate through the transition, adding the residual
bias to the mean and the innovation outer product to the covariance. -/
def ldsStep {n : ℕ} (scale : ℝ) (inp : LDSStep n) (s : LDSState n) : LDSState n :=
  let z := inp.obs / scale
  let obsMean := inp.coeff.emission ⬝ᵥ s.mean
  let covE := s.cov *ᵥ inp.coeff.emission
  let obsVar := inp.coeff.emission ⬝ᵥ covE + inp.coeff.noise_std ^ 2
  let llStep :=
    if inp.observed then gaussianLogDensity z obsMean (obsVar + varianceFloor) else 0
  let gain : Fin n → ℝ := fun i => covE i / (obsVar + varianceFloor)
  let fm : Fin n → ℝ :=
    if inp.observed then fun i => s.mean i + gain i * (z - obsMean) else s.mean
  let fc : Matrix (Fin n) (Fin n) ℝ :=
    if inp.observed then Matrix.of fun i j => s.cov i j - gain i * covE j else s.cov
  { mean := fun i => (inp.coeff.transition *ᵥ fm) i + inp.coeff.residual
    cov := inp.coeff.transition * fc * inp.coeff.transition.transpose
      + Matrix.of fun i j => inp.coeff.innovation i * inp.coeff.innovation j
    ll := s.ll + llStep }

/-- The LDS value constructed by `LDS.__init__` as called from
`DeepStateNetwork.compute_lds`: per-step coefficient lists, the prior latent
distribution and the dimensions. -/
structure LDS (n : ℕ) where
  emission_coeff : List (Fin n → ℝ)
  transition_coeff : List (Matrix (Fin n) (Fin n) ℝ)
  innovation_coeff : List (Fin n → ℝ)
  noise_std : List ℝ
  residuals : List ℝ
  prior_mean : Fin n → ℝ
  prior_cov : Matrix (Fin n) (Fin n) ℝ
  latent_dim : ℕ
  output_dim : ℕ
  seq_length : ℕ

/-- The per-step coefficient tuples of an LDS, zipping the five parallel
per-step lists. -/
def ldsCoeffs {n : ℕ} (lds : LDS n) : List (LDSCoeff n) :=
  ((((lds.emission_coeff.zip lds.transition_coeff).zip lds.innovation_coeff).zip
      lds.noise_std).zip lds.residuals).map
    (fun p =>
      { emission := p.1.1.1.1
        transition := p.1.1.1.2
        innovation := p.1.1.2
        noise_std := p.1.2
        residual := p.2 })

/-- Modelled from the spec: `LDS.log_prob(x, observed, scale)`
(`gluonts/distribution/lds.py` is not among the given sources): a fold of
`ldsStep` over the per-step inputs, starting from the prior latent
distribution and zero accumulated log-likelihood; returns the summed
log-likelihood, the terminal filtered mean and the terminal filtered
covariance. -/
def LDS.log_prob {n : ℕ} (lds : LDS n) (x : List ℝ) (observed : List Bool)
    (scale : ℝ) : ℝ × (Fin n → ℝ) × Matrix (Fin n) (Fin n) ℝ :=
  let steps := ((ldsCoeffs lds).zip (x.zip observed)).map
    (fun p => { coeff := p.1, obs := p.2.1, observed := p.2.2 : LDSStep n })
  let final := steps.foldl (fun s inp => ldsStep scale inp s)
    { mean := lds.prior_mean, cov := lds.prior_cov, ll := 0 }
  (final.ll, final.mean, final.cov)

/-- A concrete one-dimensional coefficient tuple used as witness input. -/
def wCoeff : LDSCoeff 1 where
  emission := fun _ => 1
  transition := 1
  innovation := fun _ => 0
  noise_std := 1
  residual := 0

/-- A concrete unobserved step used as witness input. -/
def wStep : LDSStep 1 where
  coeff := wCoeff
  obs := 0
  observed := false

/-- A concrete filter state used as witness input. -/
def wState : LDSState 1 where
  mean := fun _ => 0
  cov := 0
  ll := 0

end LDSDefs

noncomputable section NetworkDefs

/-- The recurrent state of the LSTM stack (opaque to the verified core). -/
def LstmState : Type := List (List ℝ)

/-- Embedding of `DeepStateNetwork` from
`gluonts/model/deepstate/_network.py`.  The constituent framework blocks
(feature embedder, LSTM stack, prior mean/covariance projections, ISSM
coefficient generator, LDS argument projection, scaler) are external
collaborators of the verified core and are represented by the functions they
compute.  The tensor batch axis is handled elementwise by the framework;
the embedding tracks a single batch element through the wiring. -/
structure DeepStateNetwork (n : ℕ) where
  past_length : ℕ
  prediction_length : ℕ
  embedder : List ℤ → List ℝ
  lstm_unroll : List (List ℝ) → Option LstmState → ℕ → List (List ℝ) × LstmState
  prior_mean_model : List ℝ → (Fin n → ℝ)
  prior_cov_diag_model : List ℝ → (Fin n → ℝ)
  issm_coeff :
    List ℕ → List (Fin n → ℝ) × List (Matrix (Fin n) (Fin n) ℝ) × List (Fin n → ℝ)
  lds_proj : List (List ℝ) → List ℝ × List ℝ × List ℝ
  scaler : List ℝ → List Bool → ℝ

/-- `slice_axis(axis=1, begin=-m, end=None)`: the last `m` entries of the
time axis. -/
def lastN {α : Type} (l : List α) (m : ℕ) : List α := l.drop (l.length - m)

/-- `DeepStateNetwork.compute_lds`: concatenates the time features with the
repeated static-feature embedding, unrolls the LSTM, computes the prior from
the first LSTM output unless a prior is supplied, generates the ISSM
coefficients, projects the LDS arguments (noise std, innovation, residuals)
from the LSTM output, and assembles the LDS, multiplying the projected
innovation into the ISSM innovation coefficient. -/
def compute_lds {n : ℕ} (net : DeepStateNetwork n)
    (feat_static_cat : List ℤ) (seasonal_indicators : List ℕ)
    (time_feat : List (List ℝ)) (length : ℕ)
    (prior : Option ((Fin n → ℝ) × Matrix (Fin n) (Fin n) ℝ))
    (lstm_begin_state : Option LstmState) : LDS n × LstmState :=
  let embedded_cat := net.embedder feat_static_cat
  let features := time_feat.map (fun tf => tf ++ embedded_cat)
  let unrolled := net.lstm_unroll features lstm_begin_state length
  let output := unrolled.1
  let priorPair :=
    match prior with
    | some p => p
    | none =>
        let prior_input := output.getD 0 []
        (net.prior_mean_model prior_input,
          Matrix.diagonal (net.prior_cov_diag_model prior_input))
  let coeffs := net.issm_coeff seasonal_indicators
  let projected := net.lds_proj output
  let innovation := projected.2.1
  ({ emission_coeff := coeffs.1
     transition_coeff := coeffs.2.1
     innovation_coeff :=
       (innovation.zip coeffs.2.2).map (fun p => fun i => p.1 * p.2 i)
     noise_std := projected.1
     residuals := projected.2.2
     prior_mean := priorPair.1
     prior_cov := priorPair.2
     latent_dim := n
     output_dim := 1
     seq_length := length }, unrolled.2)

/-- The per-trajectory random draws consumed by `LDS.sample`: a draw for the
initial latent state around the prior mean, a scalar process-noise draw per
step and a scalar emission-noise draw per step. -/
structure LDSNoise (n : ℕ) where
  init : Fin n → ℝ
  proc : ℕ → ℝ
  emit : ℕ → ℝ

/-- Modelled from the spec: the forward-simulation loop of `LDS.sample` for
one trajectory (`gluonts/distribution/lds.py` is not among the given
sources).  Per spec §4.2, at each step the sampled state emits
`(emission ⬝ state + noise_std · ε) · scale` — a single `output_dim = 1`
element — and the state propagates through the transition with the residual
bias and the innovation-scaled process-noise draw. -/
def samplePathGo {n : ℕ} (scale : ℝ) (nz : LDSNoise n) :
    List (LDSCoeff n) → (Fin n → ℝ) → ℕ → List (List ℝ)
  | [], _, _ => []
  | c :: rest, xstate, t =>
      [(c.emission ⬝ᵥ xstate + c.noise_std * nz.emit t) * scale] ::
        samplePathGo scale nz rest
          (fun i => (c.transition *ᵥ xstate) i + c.residual
            + c.innovation i * nz.proc t)
          (t + 1)

/-- Modelled from the spec: `LDS.sample(num_samples, scale)`
(`gluonts/distribution/lds.py` is not among the given sources): independent
trajectories indexed by (sample path, batch element), each starting from a
draw around the prior mean; the output is laid out
samples × batch × time × output_dim. -/
def LDS.sample {n : ℕ} (lds : LDS n) (num_samples batch_size : ℕ) (scale : ℝ)
    (noise : ℕ → ℕ → LDSNoise n) : List (List (List (List ℝ))) :=
  (List.range num_samples).map (fun s =>
    (List.range batch_size).map (fun b =>
      samplePathGo scale (noise s b) (ldsCoeffs lds)
        (fun i => lds.prior_mean i + (noise s b).init i) 0))

/-- Element access into a nested (4-dimensional) list tensor, defaulting to
`0` out of range. -/
def idx4 (x : List (List (List (List ℝ)))) (i j k l : ℕ) : ℝ :=
  (((x.getD i []).getD j []).getD k []).getD l 0

/-- `transpose(axes=(1, 0, 3, 2))` on a rectangular 4-dimensional tensor laid
out as nested lists: `result[j][i][l][k] = x[i][j][k][l]`, with the result
dimensions read off the input nesting. -/
def transpose1032 (x : List (List (List (List ℝ)))) : List (List (List (List ℝ))) :=
  (List.range (x.getD 0 []).length).map (fun j =>
    (List.range x.length).map (fun i =>
      (List.range (((x.getD 0 []).getD 0 []).getD 0 []).length).map (fun l =>
        (List.range ((x.getD 0 []).getD 0 []).length).map (fun k =>
          idx4 x i j k l))))

/-- The conditioning part of `DeepStatePredictionNetwork.hybrid_forward`, up
to and including the construction of the prediction-range LDS: run
`compute_lds` over the (sliced) past range with no supplied prior, compute
the scale, run `log_prob` over the past range, then build the
prediction-range LDS passing the terminal filtered mean and covariance as
the prior and the final LSTM state as the begin state.  Returns the
prediction LDS together with the scale. -/
def predictionLDS {n : ℕ} (net : DeepStateNetwork n)
    (feat_static_cat : List ℤ) (past_observed_values : List Bool)
    (past_seasonal_indicators : List ℕ) (past_time_feat : List (List ℝ))
    (past_target : List ℝ) (future_seasonal_indicators : List ℕ)
    (future_time_feat : List (List ℝ)) : LDS n × ℝ :=
  let past := compute_lds net feat_static_cat
    (lastN past_seasonal_indicators net.past_length)
    (lastN past_time_feat net.past_length) net.past_length none none
  let lds := past.1
  let lstm_state := past.2
  let scale := net.scaler past_target past_observed_values
  let observed_context := lastN past_observed_values net.past_length
  let lp := lds.log_prob (lastN past_target net.past_length) observed_context scale
  let final_mean := lp.2.1
  let final_cov := lp.2.2
  let prediction := compute_lds net feat_static_cat future_seasonal_indicators
    future_time_feat net.prediction_length (some (final_mean, final_cov))
    (some lstm_state)
  (prediction.1, scale)

/-- The sample tensor drawn inside `DeepStatePredictionNetwork.hybrid_forward`:
`lds_prediction.sample(num_samples=self.num_sample_paths, scale=scale)`. -/
def predictionSamples {n : ℕ} (net : DeepStateNetwork n)
    (feat_static_cat : List ℤ) (past_observed_values : List Bool)
    (past_seasonal_indicators : List ℕ) (past_time_feat : List (List ℝ))
    (past_target : List ℝ) (future_seasonal_indicators : List ℕ)
    (future_time_feat : List (List ℝ)) (num_sample_paths batch_size : ℕ)
    (noise : ℕ → ℕ → LDSNoise n) : List (List (List (List ℝ))) :=
  let pl := predictionLDS net feat_static_cat past_observed_values
    past_seasonal_indicators past_time_feat past_target
    future_seasonal_indicators future_time_feat
  pl.1.sample num_sample_paths batch_size pl.2 noise

/-- `DeepStatePredictionNetwork.hybrid_forward`: draws the sample
trajectories from the prediction LDS and returns them transposed with
`axes=(1, 0, 3, 2)`, i.e. from (num_samples, batch_size, prediction_length,
target_dim) to (batch_size, num_samples, target_dim, prediction_length). -/
def DeepStatePredictionNetwork.hybrid_forward {n : ℕ} (net : DeepStateNetwork n)
    (num_sample_paths batch_size : ℕ) (noise : ℕ → ℕ → LDSNoise n)
    (feat_static_cat : List ℤ) (past_observed_values : List Bool)
    (past_seasonal_indicators : List ℕ) (past_time_feat : List (List ℝ))
    (past_target : List ℝ) (future_seasonal_indicators : List ℕ)
    (future_time_feat : List (List ℝ)) : List (List (List (List ℝ))) :=
  transpose1032 (predictionSamples net feat_static_cat past_observed_values
    past_seasonal_indicators past_time_feat past_target
    future_seasonal_indicators future_time_feat num_sample_paths batch_size noise)

/-- A concrete one-dimensional network with trivial blocks, used as witness
input. -/
def wNet : DeepStateNetwork 1 where
  past_length := 1
  prediction_length := 1
  embedder := fun _ => []
  lstm_unroll := fun features st _ => (features, st.getD [])
  prior_mean_model := fun _ => fun _ => 0
  prior_cov_diag_model := fun _ => fun _ => 1
  issm_coeff := fun _ => ([fun _ => 1], [1], [fun _ => 1])
  lds_proj := fun _ => ([1], [1], [0])
  scaler := fun _ _ => 1

/-- A concrete noise source used as witness input. -/
def wNoise : ℕ → ℕ → LDSNoise 1 :=
  fun _ _ => { init := fun _ => 0, proc := fun _ => 0, emit := fun _ => 0 }

end NetworkDefs

section EstimatorDefs

/-- `FREQ_LONGEST_PERIOD_DICT` from `gluonts/model/deepstate/_estimator.py`:
granularity → period length of the longest expected season. -/
def FREQ_LONGEST_PERIOD_DICT : List (String × ℕ) :=
  [("M", 12), ("W-SUN", 52), ("D", 365), ("B", 365), ("H", 168), ("T", 1440)]

/-- A parsed pandas offset: `to_offset(freq_str)` (pandas is an external
collaborator) is represented by its `name` and multiple `n`. -/
structure Offset where
  name : String
  n : ℕ

/-- `longest_period_from_frequency_str`:
`FREQ_LONGEST_PERIOD_DICT[offset.name] // offset.n`; the `KeyError` a Python
dict raises on a missing key is represented by `none`. -/
def longest_period_from_frequency_str (freq : Offset) : Option ℕ :=
  (FREQ_LONGEST_PERIOD_DICT.lookup freq.name).map (fun p => p / freq.n)

/-- Truthiness of a Python list: a list is truthy iff it is non-empty. -/
def pyListTruthy {α : Type} (l : List α) : Bool := !l.isEmpty

/-- The check performed by
`assert cardinality is None or [c > 0 for c in cardinality]` in both
`DeepStateEstimator.__init__` and `TransformerEstimator.__init__`: `None`
passes, and otherwise the asserted value is the *truthiness of the list*
`[c > 0 for c in cardinality]` — a list, truthy whenever non-empty — not the
conjunction of its elements. -/
def cardinalityAssertPasses (cardinality : Option (List ℤ)) : Bool :=
  match cardinality with
  | none => true
  | some cs => pyListTruthy (cs.map (fun c => decide (0 < c)))

/-- Modelled from the spec: `CompositeISSM.get_from_freq`
(`gluonts/model/deepstate/issm.py` is not among the given sources) — a
deterministic season-configuration lookup keyed by the calendar frequency
string; unsupported frequencies are a construction-time failure (`none`).
The configuration itself is irrelevant to the claims and elided to `Unit`. -/
def CompositeISSM.get_from_freq (freq : Offset) (_add_trend : Bool) : Option Unit :=
  if (FREQ_LONGEST_PERIOD_DICT.map Prod.fst).contains freq.name then some ()
  else none

/-- Modelled from the spec: `time_features_from_frequency_str`
(`gluonts/time_feature/lag.py` is not among the given sources) — a
deterministic lookup keyed by the calendar frequency string, failing (`none`)
on unsupported frequencies; the features themselves are elided. -/
def time_features_from_frequency_str (freq : Offset) : Option (List Unit) :=
  if (FREQ_LONGEST_PERIOD_DICT.map Prod.fst).contains freq.name then some []
  else none

/-- Modelled from the spec: `get_lags_for_frequency`
(`gluonts/time_feature/lag.py` is not among the given sources) — a
deterministic lag table keyed by the calendar frequency string, failing
(`none`) on unsupported frequencies. -/
def get_lags_for_frequency (freq : Offset) : Option (List ℤ) :=
  if (FREQ_LONGEST_PERIOD_DICT.map Prod.fst).contains freq.name then some [1]
  else none

/-- A Python `assert cond, msg`: raise `AssertionError` (an `error` result)
when `cond` is falsy, otherwise continue. -/
def pyAssert {α : Type} (cond : Bool) (msg : String) (k : Except String α) :
    Except String α :=
  if cond then k else Except.error msg

/-- The fields of a fully constructed `DeepStateEstimator` that the claims
concern. -/
structure DeepStateEstimator where
  freq : Offset
  past_length : ℤ
  prediction_length : ℤ
  add_trend : Bool
  cardinality : List ℤ
  embedding_dimension : ℤ
  issm : Unit
  time_features : List Unit

/-- `DeepStateEstimator.__init__` from
`gluonts/model/deepstate/_estimator.py`: the asserts run first, in source
order; then `past_length` is resolved (calling
`longest_period_from_frequency_str(freq)` — which can fail — only when
`past_length` is unset), then `issm` (calling
`CompositeISSM.get_from_freq` only when unset), then `time_features`
(calling `time_features_from_frequency_str` only when unset).  Any failure
aborts construction with an error and no estimator value. -/
def DeepStateEstimator.init (freq : Offset) (prediction_length : ℤ)
    (add_trend : Bool) (past_length : Option ℤ) (num_periods_to_train : ℤ)
    (num_layers num_cells num_eval_samples : ℤ) (dropout_rate : ℚ)
    (_use_feat_dynamic_real use_feat_static_cat : Bool)
    (cardinality : Option (List ℤ)) (embedding_dimension : ℤ)
    (issm : Option Unit) (time_features : Option (List Unit)) :
    Except String DeepStateEstimator :=
  pyAssert (decide (0 < prediction_length))
    "The value of `prediction_length` should be > 0"
    (pyAssert (past_length.all (fun pl => decide (0 < pl)))
      "The value of `past_length` should be > 0"
      (pyAssert (decide (0 < num_layers)) "The value of `num_layers` should be > 0"
        (pyAssert (decide (0 < num_cells)) "The value of `num_cells` should be > 0"
          (pyAssert (decide (0 < num_eval_samples))
            "The value of `num_eval_samples` should be > 0"
            (pyAssert (decide (0 ≤ dropout_rate))
              "The value of `dropout_rate` should be >= 0"
              (pyAssert (cardinality.isSome || !use_feat_static_cat)
                "You must set `cardinality` if `use_feat_static_cat=True`"
                (pyAssert (cardinalityAssertPasses cardinality)
                  "Elements of `cardinality` should be > 0"
                  (pyAssert (decide (0 < embedding_dimension))
                    "The value of `embedding_dimension` should be > 0"
                    (match
                      (match past_length with
                       | some pl => Except.ok pl
                       | none =>
                         match longest_period_from_frequency_str freq with
                         | none => Except.error "KeyError"
                         | some lp =>
                           Except.ok (num_periods_to_train * (lp : ℤ))) with
                     | Except.error e => Except.error e
                     | Except.ok past_len =>
                       match
                         (match issm with
                          | some i => Except.ok i
                          | none =>
                            match CompositeISSM.get_from_freq freq add_trend with
                            | none => Except.error "unsupported frequency"
                            | some i => Except.ok i) with
                       | Except.error e => Except.error e
                       | Except.ok issm_val =>
                         match
                           (match time_features with
                            | some t => Except.ok t
                            | none =>
                              match time_features_from_frequency_str freq with
                              | none => Except.error "unsupported frequency"
                              | some t => Except.ok t) with
                         | Except.error e => Except.error e
                         | Except.ok tf =>
                           Except.ok
                             { freq := freq
                               past_length := past_len
                               prediction_length := prediction_length
                               add_trend := add_trend
                               cardinality :=
                                 if use_feat_static_cat then cardinality.getD []
                                 else [1]
                               embedding_dimension := embedding_dimension
                               issm := issm_val
                               time_features := tf })))))))))

/-- The fields of a fully constructed `TransformerEstimator` that the claims
concern. -/
structure TransformerEstimator where
  freq : Offset
  prediction_length : ℤ
  context_length : ℤ
  cardinality : List ℤ
  embedding_dimension : ℤ
  num_parallel_samples : ℤ
  lags_seq : List ℤ
  history_length : ℤ
  time_features : List Unit

/-- `TransformerEstimator.__init__` from
`gluonts/model/transformer/_estimator.py`: the asserts run first, in source
order (including the same list-truthiness `cardinality` assert as
DeepState); then `context_length`, `lags_seq` and `time_features` are
resolved, and `history_length = context_length + max(lags_seq)` (Python's
`max` on an empty list raises). -/
def TransformerEstimator.init (freq : Offset) (prediction_length : ℤ)
    (context_length : Option ℤ) (dropout_rate : ℚ)
    (cardinality : Option (List ℤ)) (embedding_dimension : ℤ)
    (_use_feat_dynamic_real use_feat_static_cat : Bool)
    (lags_seq : Option (List ℤ)) (time_features : Option (List Unit))
    (num_parallel_samples : ℤ) : Except String TransformerEstimator :=
  pyAssert (decide (0 < prediction_length))
    "The value of `prediction_length` should be > 0"
    (pyAssert (context_length.all (fun cl => decide (0 < cl)))
      "The value of `context_length` should be > 0"
      (pyAssert (decide (0 ≤ dropout_rate))
        "The value of `dropout_rate` should be >= 0"
        (pyAssert (cardinality.isSome || !use_feat_static_cat)
          "You must set `cardinality` if `use_feat_static_cat=True`"
          (pyAssert (cardinalityAssertPasses cardinality)
            "Elements of `cardinality` should be > 0"
            (pyAssert (decide (0 < embedding_dimension))
              "The value of `embedding_dimension` should be > 0"
              (pyAssert (decide (0 < num_parallel_samples))
                "The value of `num_parallel_samples` should be > 0"
                (match
                  (match lags_seq with
                   | some l => Except.ok l
                   | none =>
                     match get_lags_for_frequency freq with
                     | none => Except.error "unsupported frequency"
                     | some l => Except.ok l) with
                 | Except.error e => Except.error e
                 | Except.ok lags =>
                   match
                     (match time_features with
                      | some t => Except.ok t
                      | none =>
                        match time_features_from_frequency_str freq with
                        | none => Except.error "unsupported frequency"
                        | some t => Except.ok t) with
                   | Except.error e => Except.error e
                   | Except.ok tf =>
                     match lags.max? with
                     | none => Except.error "ValueError: max() arg is an empty sequence"
                     | some maxlag =>
                       Except.ok
                         { freq := freq
                           prediction_length := prediction_length
                           context_length :=
                             context_length.getD prediction_length
                           cardinality :=
                             if use_feat_static_cat then cardinality.getD []
                             else [1]
                           embedding_dimension := embedding_dimension
                           num_parallel_samples := num_parallel_samples
                           lags_seq := lags
                           history_length :=
                             context_length.getD prediction_length + maxlag
                           time_features := tf })))))))

/-- Does a construction attempt return an estimator (no raised error)? -/
def constructionSucceeds {α : Type} : Except String α → Bool
  | Except.ok _ => true
  | Except.error _ => false

end EstimatorDefs

section NegBinomialTheorems

open NegativeBinomial

/-- C1: for `mu > 0`, `alpha > 0` and a count `x ≥ 0`,
`NegativeBinomial(mu, alpha).log_prob(x)` equals the negative-binomial
log-pmf in mean/dispersion form
`x·log(αμ/(1+αμ)) − (1/α)·log(1+αμ) + lgamma(x+1/α) − lgamma(x+1) − lgamma(1/α)`,
which is the classical log-pmf `x·log p + r·log(1−p) + lgamma(x+r) − lgamma(x+1)
− lgamma(r)` with `r = 1/α` and success probability `p = αμ/(1+αμ)`. -/
theorem log_prob_is_neg_binomial_log_pmf (mu alpha x : ℝ)
    (hmu : 0 < mu) (ha : 0 < alpha) (_hx : 0 ≤ x) :
    NegativeBinomial.log_prob mu alpha x
      = x * Real.log (alpha * mu / (1 + alpha * mu))
        - (1 / alpha) * Real.log (1 + alpha * mu)
        + gammaln (x + 1 / alpha) - gammaln (x + 1) - gammaln (1 / alpha)
    ∧ NegativeBinomial.log_prob mu alpha x
      = x * Real.log (alpha * mu / (1 + alpha * mu))
        + (1 / alpha) * Real.log (1 - alpha * mu / (1 + alpha * mu))
        + gammaln (x + 1 / alpha) - gammaln (x + 1) - gammaln (1 / alpha) := by
  have h1 : (0:ℝ) < 1 + alpha * mu := by positivity
  have h1' : (1:ℝ) + alpha * mu ≠ 0 := ne_of_gt h1
  have hp : 1 - alpha * mu / (1 + alpha * mu) = (1 + alpha * mu)⁻¹ := by
    field_simp
  constructor
  · simp only [NegativeBinomial.log_prob, log1p]
    norm_num
  · simp only [NegativeBinomial.log_prob, log1p]
    rw [hp, Real.log_inv]
    ring_nf

/-- Witness for C1 at `mu = 1`, `alpha = 1`, `x = 0`. -/
theorem log_prob_is_neg_binomial_log_pmf_witness :
    NegativeBinomial.log_prob 1 1 0
      = 0 * Real.log (1 * 1 / (1 + 1 * 1))
        - (1 / 1) * Real.log (1 + 1 * 1)
        + gammaln (0 + 1 / 1) - gammaln (0 + 1) - gammaln (1 / 1)
    ∧ NegativeBinomial.log_prob 1 1 0
      = 0 * Real.log (1 * 1 / (1 + 1 * 1))
        + (1 / 1) * Real.log (1 - 1 * 1 / (1 + 1 * 1))
        + gammaln (0 + 1 / 1) - gammaln (0 + 1) - gammaln (1 / 1) :=
  log_prob_is_neg_binomial_log_pmf 1 1 0 (by norm_num) (by norm_num) (by norm_num)

/-- C2: for `mu > 0`, `alpha > 0`, `mean = mu`,
`stddev = sqrt(mu·(1+mu·alpha))`, and `stddev² = mu + alpha·mu²`. -/
theorem neg_binomial_mean_stddev (mu alpha : ℝ) (hmu : 0 < mu) (ha : 0 < alpha) :
    NegativeBinomial.mean mu alpha = mu
    ∧ NegativeBinomial.stddev mu alpha = Real.sqrt (mu * (1 + mu * alpha))
    ∧ (NegativeBinomial.stddev mu alpha) ^ 2 = mu + alpha * mu ^ 2 := by
  have hnn : (0:ℝ) ≤ mu * (1 + mu * alpha) := by positivity
  refine ⟨rfl, by norm_num [NegativeBinomial.stddev], ?_⟩
  have hs : NegativeBinomial.stddev mu alpha = Real.sqrt (mu * (1 + mu * alpha)) := by
    norm_num [NegativeBinomial.stddev]
  rw [hs, Real.sq_sqrt hnn]
  ring

/-- Witness for C2 at `mu = 2`, `alpha = 1`. -/
theorem neg_binomial_mean_stddev_witness :
    NegativeBinomial.mean 2 1 = 2
    ∧ NegativeBinomial.stddev 2 1 = Real.sqrt (2 * (1 + 2 * 1))
    ∧ (NegativeBinomial.stddev 2 1) ^ 2 = 2 + 1 * 2 ^ 2 :=
  neg_binomial_mean_stddev 2 1 (by norm_num) (by norm_num)

/-- C4: for every `mu`, `alpha` and any framework Gamma/Poisson draw
functions, the Gamma shape and scale used by `NegativeBinomial.sample` are
clamped into `[1e-5, 1e10]`, the Gamma variate used as Poisson rate is capped
at `1e6`, the Poisson draw uses exactly that capped rate, and the sampled
value is a non-negative integer — no parameter value can make the draw
degenerate. -/
theorem neg_binomial_sample_clamped (gammaDraw : ℝ → ℝ → ℝ) (poissonDraw : ℝ → ℕ)
    (mu alpha : ℝ) :
    sampleShape alpha ∈ Set.Icc (1e-5 : ℝ) 1e10
    ∧ sampleScale mu alpha ∈ Set.Icc (1e-5 : ℝ) 1e10
    ∧ sampleRate gammaDraw mu alpha ≤ 1e6
    ∧ sample_s gammaDraw poissonDraw mu alpha
        = poissonDraw (sampleRate gammaDraw mu alpha)
    ∧ 0 ≤ (sample_s gammaDraw poissonDraw mu alpha : ℤ) := by
  have hb : (1e-5 : ℝ) ≤ 1e10 := by norm_num
  refine ⟨⟨le_min (le_max_left _ _) hb, min_le_right _ _⟩,
    ⟨le_min (le_max_left _ _) hb, min_le_right _ _⟩,
    min_le_right _ _, rfl, Int.natCast_nonneg _⟩

/-- C5: `NegativeBinomialOutput.distribution` with a scale `s` returns the
parameters `(mu·s, alpha·sqrt(s+1))`, and with `scale = None` returns
`(mu, alpha)` unchanged. -/
theorem neg_binomial_output_distribution_scaling (mu alpha s : ℝ) :
    NegativeBinomialOutput.distribution (mu, alpha) (some s)
      = (mu * s, alpha * Real.sqrt (s + 1))
    ∧ NegativeBinomialOutput.distribution (mu, alpha) none = (mu, alpha) := by
  constructor
  · simp only [NegativeBinomialOutput.distribution]
    norm_num
  · rfl

/-- C6: `NegativeBinomialOutput.domain_map` returns strictly positive
parameters: each component is a softplus plus the additive floor `1e-8`,
hence `≥ 1e-8 > 0`. -/
theorem neg_binomial_domain_map_positive (mu alpha : ℝ) :
    1e-8 ≤ (NegativeBinomialOutput.domain_map mu alpha).1
    ∧ 0 < (NegativeBinomialOutput.domain_map mu alpha).1
    ∧ 1e-8 ≤ (NegativeBinomialOutput.domain_map mu alpha).2
    ∧ 0 < (NegativeBinomialOutput.domain_map mu alpha).2 := by
  have hsp : ∀ y : ℝ, 0 < NegativeBinomialOutput.softplus y := by
    intro y
    have hy := Real.exp_pos y
    exact Real.log_pos (by linarith)
  have he : (0:ℝ) < 1e-8 := by norm_num
  have h1 := hsp mu
  have h2 := hsp alpha
  simp only [NegativeBinomialOutput.domain_map]
  refine ⟨by linarith, by linarith, by linarith, by linarith⟩

end NegBinomialTheorems

section LDSTheorems

/-- C3: at any step of the `LDS.log_prob` recursion (`LDS.log_prob` is the
fold of `ldsStep`) whose observed mask is `false`, the accumulated
log-likelihood is unchanged — the step contributes exactly zero — while the
latent state still advances: the filtered state equals the predicted state
(no Kalman correction), so the next mean is `transition ·ᵥ mean + residual`
and the next covariance is `transition * cov * transitionᵀ + innovation
innovationᵀ`. -/
theorem lds_unobserved_step_zero_contribution {n : ℕ} (scale : ℝ)
    (inp : LDSStep n) (s : LDSState n) (h : inp.observed = false) :
    (ldsStep scale inp s).ll = s.ll
    ∧ (ldsStep scale inp s).mean
        = (fun i => (inp.coeff.transition *ᵥ s.mean) i + inp.coeff.residual)
    ∧ (ldsStep scale inp s).cov
        = inp.coeff.transition * s.cov * inp.coeff.transition.transpose
          + Matrix.of fun i j => inp.coeff.innovation i * inp.coeff.innovation j := by
  refine ⟨?_, ?_, ?_⟩ <;> simp [ldsStep, h]

/-- Witness for C3: a concrete one-dimensional unobserved step. -/
theorem lds_unobserved_step_zero_contribution_witness :
    (ldsStep 1 wStep wState).ll = wState.ll
    ∧ (ldsStep 1 wStep wState).mean
        = (fun i => (wStep.coeff.transition *ᵥ wState.mean) i + wStep.coeff.residual)
    ∧ (ldsStep 1 wStep wState).cov
        = wStep.coeff.transition * wState.cov * wStep.coeff.transition.transpose
          + Matrix.of fun i j => wStep.coeff.innovation i * wStep.coeff.innovation j :=
  lds_unobserved_step_zero_contribution 1 wStep wState rfl

end LDSTheorems

section NetworkTheorems

/-- C9: in `DeepStatePredictionNetwork.hybrid_forward`, the LDS constructed
for the prediction range has as its prior mean and prior covariance exactly
the terminal filtered mean and covariance returned by `log_prob` over the
past range — the forecast segment is seeded by the terminal filtered state
of the conditioning segment, unchanged. -/
theorem prediction_lds_prior_is_terminal_filtered_state {n : ℕ}
    (net : DeepStateNetwork n) (fsc : List ℤ) (pov : List Bool) (psi : List ℕ)
    (ptf : List (List ℝ)) (ptgt : List ℝ) (fsi : List ℕ) (ftf : List (List ℝ)) :
    (predictionLDS net fsc pov psi ptf ptgt fsi ftf).1.prior_mean
      = ((compute_lds net fsc (lastN psi net.past_length)
            (lastN ptf net.past_length) net.past_length none none).1.log_prob
          (lastN ptgt net.past_length) (lastN pov net.past_length)
          (net.scaler ptgt pov)).2.1
    ∧ (predictionLDS net fsc pov psi ptf ptgt fsi ftf).1.prior_cov
      = ((compute_lds net fsc (lastN psi net.past_length)
            (lastN ptf net.past_length) net.past_length none none).1.log_prob
          (lastN ptgt net.past_length) (lastN pov net.past_length)
          (net.scaler ptgt pov)).2.2 :=
  ⟨rfl, rfl⟩

/-- An in-range `getD` access returns a member of the list. -/
theorem getD_mem {α : Type _} (l : List α) (i : ℕ) (d : α) (h : i < l.length) :
    l.getD i d ∈ l := by
  rw [List.getD_eq_getElem _ _ h]
  exact List.getElem_mem h

/-- Indexing a mapped range: `((range m).map f).getD i d = f i` for `i < m`. -/
theorem getD_range_map {α : Type _} (f : ℕ → α) (d : α) {m i : ℕ} (h : i < m) :
    ((List.range m).map f).getD i d = f i := by
  have hlen : i < ((List.range m).map f).length := by simpa using h
  rw [List.getD_eq_getElem _ _ hlen]
  simp

/-- The forward simulation emits one observation per coefficient step. -/
theorem samplePathGo_length {n : ℕ} (scale : ℝ) (nz : LDSNoise n) :
    ∀ (cs : List (LDSCoeff n)) (x : Fin n → ℝ) (t : ℕ),
      (samplePathGo scale nz cs x t).length = cs.length := by
  intro cs
  induction cs with
  | nil => intro x t; rfl
  | cons c rest ih => intro x t; simp [samplePathGo, ih]

/-- Every per-step emission of the forward simulation has `output_dim = 1`. -/
theorem samplePathGo_mem_length_one {n : ℕ} (scale : ℝ) (nz : LDSNoise n) :
    ∀ (cs : List (LDSCoeff n)) (x : Fin n → ℝ) (t : ℕ),
      ∀ l ∈ samplePathGo scale nz cs x t, l.length = 1 := by
  intro cs
  induction cs with
  | nil => intro x t l hl; simp [samplePathGo] at hl
  | cons c rest ih =>
      intro x t l hl
      simp only [samplePathGo, List.mem_cons] at hl
      rcases hl with h | h
      · subst h; rfl
      · exact ih _ _ _ h

/-- First dimension of the transposed tensor. -/
theorem transpose1032_length (x : List (List (List (List ℝ)))) :
    (transpose1032 x).length = (x.getD 0 []).length := by
  simp [transpose1032]

/-- Second dimension of the transposed tensor. -/
theorem transpose1032_getD_length (x : List (List (List (List ℝ))))
    {j : ℕ} (hj : j < (x.getD 0 []).length) :
    ((transpose1032 x).getD j []).length = x.length := by
  simp only [transpose1032]
  rw [getD_range_map _ _ hj]
  simp

/-- Third dimension of the transposed tensor. -/
theorem transpose1032_getD2_length (x : List (List (List (List ℝ))))
    {j i : ℕ} (hj : j < (x.getD 0 []).length) (hi : i < x.length) :
    (((transpose1032 x).getD j []).getD i []).length
      = (((x.getD 0 []).getD 0 []).getD 0 []).length := by
  simp only [transpose1032]
  rw [getD_range_map _ _ hj, getD_range_map _ _ hi]
  simp

/-- Fourth dimension of the transposed tensor. -/
theorem transpose1032_getD3_length (x : List (List (List (List ℝ))))
    {j i l : ℕ} (hj : j < (x.getD 0 []).length) (hi : i < x.length)
    (hl : l < (((x.getD 0 []).getD 0 []).getD 0 []).length) :
    ((((transpose1032 x).getD j []).getD i []).getD l []).length
      = ((x.getD 0 []).getD 0 []).length := by
  simp only [transpose1032]
  rw [getD_range_map _ _ hj, getD_range_map _ _ hi, getD_range_map _ _ hl]
  simp

/-- Value of the transposed tensor: `result[j][i][l][k] = x[i][j][k][l]`. -/
theorem transpose1032_idx (x : List (List (List (List ℝ))))
    {i j k l : ℕ} (hi : i < x.length) (hj : j < (x.getD 0 []).length)
    (hk : k < ((x.getD 0 []).getD 0 []).length)
    (hl : l < (((x.getD 0 []).getD 0 []).getD 0 []).length) :
    idx4 (transpose1032 x) j i l k = idx4 x i j k l := by
  simp only [idx4, transpose1032]
  rw [getD_range_map _ _ hj, getD_range_map _ _ hi, getD_range_map _ _ hl,
    getD_range_map _ _ hk]

/-- C10: the sample tensor drawn by `LDS.sample` inside
`DeepStatePredictionNetwork.hybrid_forward` has shape
(num_samples, batch, time, output_dim) with `output_dim = 1`, and
`hybrid_forward` returns exactly its transposition with `axes = (1, 0, 3, 2)`
— shape (batch_size, num_samples, output_dim, prediction_length) — with every
sample value unchanged: `out[b][s][d][t] = samples[s][b][t][d]`. -/
theorem hybrid_forward_is_transposed_samples {n : ℕ}
    (net : DeepStateNetwork n) (num_sample_paths batch_size : ℕ)
    (noise : ℕ → ℕ → LDSNoise n) (fsc : List ℤ) (pov : List Bool)
    (psi : List ℕ) (ptf : List (List ℝ)) (ptgt : List ℝ) (fsi : List ℕ)
    (ftf : List (List ℝ)) (S : List (List (List (List ℝ))))
    (hS : S = predictionSamples net fsc pov psi ptf ptgt fsi ftf
      num_sample_paths batch_size noise)
    (hT : (ldsCoeffs (predictionLDS net fsc pov psi ptf ptgt fsi ftf).1).length
      = net.prediction_length)
    (hnum : 0 < num_sample_paths) (hbatch : 0 < batch_size)
    (hpred : 0 < net.prediction_length) :
    S.length = num_sample_paths
    ∧ (∀ s, s < num_sample_paths → (S.getD s []).length = batch_size)
    ∧ (∀ s b, s < num_sample_paths → b < batch_size →
        ((S.getD s []).getD b []).length = net.prediction_length)
    ∧ (∀ s b t, s < num_sample_paths → b < batch_size →
        t < net.prediction_length →
        (((S.getD s []).getD b []).getD t []).length = 1)
    ∧ DeepStatePredictionNetwork.hybrid_forward net num_sample_paths batch_size
        noise fsc pov psi ptf ptgt fsi ftf = transpose1032 S
    ∧ (transpose1032 S).length = batch_size
    ∧ (∀ b, b < batch_size →
        ((transpose1032 S).getD b []).length = num_sample_paths)
    ∧ (∀ b s, b < batch_size → s < num_sample_paths →
        (((transpose1032 S).getD b []).getD s []).length = 1)
    ∧ (∀ b s, b < batch_size → s < num_sample_paths →
        ((((transpose1032 S).getD b []).getD s []).getD 0 []).length
          = net.prediction_length)
    ∧ (∀ s b t, s < num_sample_paths → b < batch_size →
        t < net.prediction_length →
        idx4 (transpose1032 S) b s 0 t = idx4 S s b t 0) := by
  have hS' : S = LDS.sample (predictionLDS net fsc pov psi ptf ptgt fsi ftf).1
      num_sample_paths batch_size
      (predictionLDS net fsc pov psi ptf ptgt fsi ftf).2 noise := hS
  have h1 : S.length = num_sample_paths := by
    rw [hS', LDS.sample]
    simp
  have h2 : ∀ s, s < num_sample_paths → (S.getD s [])
      = (List.range batch_size).map (fun b =>
          samplePathGo (predictionLDS net fsc pov psi ptf ptgt fsi ftf).2
            (noise s b)
            (ldsCoeffs (predictionLDS net fsc pov psi ptf ptgt fsi ftf).1)
            (fun i => (predictionLDS net fsc pov psi ptf ptgt fsi ftf).1.prior_mean i
              + (noise s b).init i) 0) := by
    intro s hs
    rw [hS', LDS.sample, getD_range_map _ _ hs]
  have h2' : ∀ s, s < num_sample_paths → (S.getD s []).length = batch_size := by
    intro s hs
    rw [h2 s hs]
    simp
  have h3 : ∀ s b, s < num_sample_paths → b < batch_size →
      ((S.getD s []).getD b [])
        = samplePathGo (predictionLDS net fsc pov psi ptf ptgt fsi ftf).2
            (noise s b)
            (ldsCoeffs (predictionLDS net fsc pov psi ptf ptgt fsi ftf).1)
            (fun i => (predictionLDS net fsc pov psi ptf ptgt fsi ftf).1.prior_mean i
              + (noise s b).init i) 0 := by
    intro s b hs hb
    rw [h2 s hs, getD_range_map _ _ hb]
  have h3' : ∀ s b, s < num_sample_paths → b < batch_size →
      ((S.getD s []).getD b []).length = net.prediction_length := by
    intro s b hs hb
    rw [h3 s b hs hb, samplePathGo_length, hT]
  have h4 : ∀ s b t, s < num_sample_paths → b < batch_size →
      t < net.prediction_length →
      (((S.getD s []).getD b []).getD t []).length = 1 := by
    intro s b t hs hb ht
    have hlen : t < ((S.getD s []).getD b []).length := by
      rw [h3' s b hs hb]; exact ht
    have hmem : ((S.getD s []).getD b []).getD t [] ∈ (S.getD s []).getD b [] :=
      getD_mem _ _ _ hlen
    exact samplePathGo_mem_length_one _ _ _ _ _ _
      (by rw [← h3 s b hs hb]; exact hmem)
  have hd1 : (S.getD 0 []).length = batch_size := h2' 0 hnum
  have hd2 : ((S.getD 0 []).getD 0 []).length = net.prediction_length :=
    h3' 0 0 hnum hbatch
  have hd3 : (((S.getD 0 []).getD 0 []).getD 0 []).length = 1 :=
    h4 0 0 0 hnum hbatch hpred
  refine ⟨h1, h2', h3', h4, ?_, ?_, ?_, ?_, ?_, ?_⟩
  · rw [hS]; rfl
  · rw [transpose1032_length, hd1]
  · intro b hb
    rw [transpose1032_getD_length _ (by rw [hd1]; exact hb), h1]
  · intro b s hb hs
    rw [transpose1032_getD2_length _ (by rw [hd1]; exact hb)
      (by rw [h1]; exact hs), hd3]
  · intro b s hb hs
    rw [transpose1032_getD3_length _ (by rw [hd1]; exact hb)
      (by rw [h1]; exact hs) (by rw [hd3]; exact Nat.one_pos), hd2]
  · intro s b t hs hb ht
    exact transpose1032_idx S (by rw [h1]; exact hs) (by rw [hd1]; exact hb)
      (by rw [hd2]; exact ht) (by rw [hd3]; exact Nat.one_pos)

/-- Witness for C10: the concrete one-dimensional network `wNet` with one
sample path, one batch element and prediction length one. -/
theorem hybrid_forward_is_transposed_samples_witness :
    (predictionSamples wNet [] [] [] [] [] [] [] 1 1 wNoise).length = 1
    ∧ (∀ s, s < 1 →
        ((predictionSamples wNet [] [] [] [] [] [] [] 1 1 wNoise).getD s []).length = 1)
    ∧ (∀ s b, s < 1 → b < 1 →
        (((predictionSamples wNet [] [] [] [] [] [] [] 1 1 wNoise).getD s []).getD b []).length
          = wNet.prediction_length)
    ∧ (∀ s b t, s < 1 → b < 1 → t < wNet.prediction_length →
        ((((predictionSamples wNet [] [] [] [] [] [] [] 1 1 wNoise).getD s []).getD b []).getD t []).length = 1)
    ∧ DeepStatePredictionNetwork.hybrid_forward wNet 1 1 wNoise [] [] [] [] [] [] []
        = transpose1032 (predictionSamples wNet [] [] [] [] [] [] [] 1 1 wNoise)
    ∧ (transpose1032 (predictionSamples wNet [] [] [] [] [] [] [] 1 1 wNoise)).length = 1
    ∧ (∀ b, b < 1 →
        ((transpose1032 (predictionSamples wNet [] [] [] [] [] [] [] 1 1 wNoise)).getD b []).length = 1)
    ∧ (∀ b s, b < 1 → s < 1 →
        (((transpose1032 (predictionSamples wNet [] [] [] [] [] [] [] 1 1 wNoise)).getD b []).getD s []).length = 1)
    ∧ (∀ b s, b < 1 → s < 1 →
        ((((transpose1032 (predictionSamples wNet [] [] [] [] [] [] [] 1 1 wNoise)).getD b []).getD s []).getD 0 []).length
          = wNet.prediction_length)
    ∧ (∀ s b t, s < 1 → b < 1 → t < wNet.prediction_length →
        idx4 (transpose1032 (predictionSamples wNet [] [] [] [] [] [] [] 1 1 wNoise)) b s 0 t
          = idx4 (predictionSamples wNet [] [] [] [] [] [] [] 1 1 wNoise) s b t 0) :=
  hybrid_forward_is_transposed_samples wNet 1 1 wNoise [] [] [] [] [] [] [] _
    rfl rfl Nat.one_pos Nat.one_pos Nat.one_pos

end NetworkTheorems

section EstimatorTheorems

/-- C7: constructing a `DeepStateEstimator` with a calendar frequency whose
offset name is not in `FREQ_LONGEST_PERIOD_DICT`, with `past_length` and
`issm` left unset, fails during construction — the `KeyError` raised inside
`longest_period_from_frequency_str` while resolving the default
`past_length` — before any recursion runs, and no estimator value is
produced. -/
theorem deepstate_unsupported_freq_fails_construction (freq : Offset)
    (add_trend : Bool) (num_periods_to_train : ℤ)
    (h : FREQ_LONGEST_PERIOD_DICT.lookup freq.name = none) :
    DeepStateEstimator.init freq 1 add_trend none num_periods_to_train
        2 40 100 (1 / 10) false false none 20 none none
      = Except.error "KeyError" := by
  norm_num [DeepStateEstimator.init, pyAssert, cardinalityAssertPasses,
    longest_period_from_frequency_str, h]

/-- Witness for C7: the unsupported frequency string "X". -/
theorem deepstate_unsupported_freq_fails_construction_witness :
    FREQ_LONGEST_PERIOD_DICT.lookup (Offset.mk "X" 1).name = none
    ∧ DeepStateEstimator.init ⟨"X", 1⟩ 1 false none 4 2 40 100 (1 / 10)
        false false none 20 none none = Except.error "KeyError" :=
  ⟨rfl, deepstate_unsupported_freq_fails_construction ⟨"X", 1⟩ false 4 rfl⟩

/-- C8 (code bug): with `cardinality = [0]` the construction-time assert
passes — `[c > 0 for c in cardinality]` is the non-empty, hence truthy, list
`[False]` — so both `DeepStateEstimator` and `TransformerEstimator`
construction succeed, contradicting the assert's own message
"Elements of `cardinality` should be > 0". -/
theorem cardinality_zero_passes_construction :
    cardinalityAssertPasses (some [0]) = true
    ∧ constructionSucceeds
        (DeepStateEstimator.init ⟨"D", 1⟩ 1 false (some 1) 4 2 40 100 0
          false true (some [0]) 20 (some ()) (some [])) = true
    ∧ constructionSucceeds
        (TransformerEstimator.init ⟨"D", 1⟩ 1 none 0 (some [0]) 20
          false true (some [1]) (some []) 100) = true := by
  refine ⟨rfl, ?_, ?_⟩ <;> decide

end EstimatorTheorems

end GluonTS
